import Mathlib

/-!
Shallow embedding of the `keycloak` crate (client-side identity integration
layer): data types from `src/crates/keycloak/src/types.rs` and
`src/crates/keycloak/src/error.rs`, and the operations of
`src/crates/keycloak/src/keycloak.rs`.

Network I/O is modelled by an oracle value supplied to each operation: a
transport-level failure or an HTTP response (status, a parse of the body at
the expected JSON type, and the raw body text).  The external `jsonwebtoken`
library used by `decode` is modelled abstractly: a token value carries the
result of `decode_header` and, as a function of the RSA components `(n, e)`
handed to it, the combined result of `DecodingKey::from_rsa_components`
followed by `jsonwebtoken::decode` (both surface identically as `JWTError`
in the source, so their composition is one `Except` value).  `RwLock` is
modelled as a value together with a poisoned flag; acquiring a poisoned
lock fails, as in `std::sync::RwLock`.
-/

namespace KeycloakCrate

/-- Status codes are bare natural numbers (`reqwest::StatusCode`). -/
abbrev StatusCode := Nat

/-- Abstract model of `jsonwebtoken::errors::Error`: the categories that can
reach this crate through `decode_header`, `from_rsa_components` and
`decode`. -/
inductive JwtError where
  | malformedJwt
  | invalidSignature
  | expiredSignature
  | invalidRsaKey
  | jsonShape
  deriving DecidableEq, Repr

/-- Error enum from `src/crates/keycloak/src/error.rs` (`KeycloakError`). -/
inductive KeycloakError where
  | UnAuthorized
  | WriteLockFailed
  | ReadLockFailed
  | ConfigNotFound (name : String)
  | ResponseError (status : StatusCode) (body : String)
  | RequestError (cause : String)
  | JWTError (e : JwtError)
  | SerdeError (cause : String)
  | Other (msg : String)
  deriving DecidableEq, Repr

/-- Modelled from the spec: the closed error taxonomy of §4.5 (`Unauthorized`,
`ProviderRejected{status,body}`, `TransportError{cause}`,
`UnsupportedAlgorithm`, `MalformedToken`, `SigningKeyNotFound`,
`InvalidToken`, `CacheLockFailure`, `ConfigMissing{name}`). -/
inductive ErrKind where
  | Unauthorized
  | ProviderRejected (status : StatusCode) (body : String)
  | TransportError (cause : String)
  | UnsupportedAlgorithm
  | MalformedToken
  | SigningKeyNotFound
  | InvalidToken
  | CacheLockFailure
  | ConfigMissing (name : String)
  deriving DecidableEq, Repr

/-- Modelled from the spec: how a `JwtError` surfaced as `JWTError` falls into
the taxonomy.  Header-parse and payload-shape failures are malformed input
(§4.3 steps 1, 2, 6); signature, expiry and key-construction failures are
verification failures (§4.3 steps 4, 5). -/
def jwtErrKind : JwtError → ErrKind
  | .malformedJwt => .MalformedToken
  | .jsonShape => .MalformedToken
  | .invalidSignature => .InvalidToken
  | .expiredSignature => .InvalidToken
  | .invalidRsaKey => .InvalidToken

/-- Modelled from the spec: the mapping of each error the source can surface
onto the closed taxonomy of §4.5.  `Other` is a catch-all string in the
source; only the three messages the source actually emits have a taxonomy
kind.  `SerdeError` has none (the spec lists no serialization kind). -/
def errKind : KeycloakError → Option ErrKind
  | .UnAuthorized => some .Unauthorized
  | .WriteLockFailed => some .CacheLockFailure
  | .ReadLockFailed => some .CacheLockFailure
  | .ConfigNotFound name => some (.ConfigMissing name)
  | .ResponseError status body => some (.ProviderRejected status body)
  | .RequestError cause => some (.TransportError cause)
  | .JWTError e => some (jwtErrKind e)
  | .SerdeError _ => none
  | .Other "KID not specified" => some .MalformedToken
  | .Other "Key id not found" => some .SigningKeyNotFound
  | .Other "Cert Key Empty" => some .SigningKeyNotFound
  | .Other "Algorithm Not Supported" => some .UnsupportedAlgorithm
  | .Other _ => none

/-- Grant types from `src/crates/keycloak/src/types.rs` (`GrantType`). -/
inductive GrantType where
  | PASSWORD
  | AuthorizationCode
  | ClientCredentials
  | RefreshToken
  deriving DecidableEq, Repr

/-- Serde rename of each `GrantType` variant (its wire value). -/
def GrantType.wire : GrantType → String
  | .PASSWORD => "password"
  | .AuthorizationCode => "authorization_code"
  | .ClientCredentials => "client_credentials"
  | .RefreshToken => "refresh_token"

/-- Rust `impl Default for GrantType`. -/
def GrantType.default : GrantType := .PASSWORD

/-- Token request struct from `types.rs` (`TokenRequest`), fields in source
order. -/
structure TokenRequest where
  username : Option String
  password : Option String
  refresh_token : Option String
  client_id : String
  client_secret : String
  grant_type : GrantType
  deriving DecidableEq, Repr

/-- Derived `Default` for `TokenRequest`: `None`/empty strings, default grant
type. -/
def TokenRequest.default : TokenRequest :=
  { username := none, password := none, refresh_token := none,
    client_id := "", client_secret := "", grant_type := GrantType.default }

/-- Constructor `TokenRequest::username_password`. -/
def TokenRequest.username_password (username password : String) : TokenRequest :=
  { TokenRequest.default with username := some username, password := some password }

/-- Constructor `TokenRequest::refresh_token` (named `refreshToken` because the
field projection already takes the snake-case name). -/
def TokenRequest.refreshToken (rt : String) : TokenRequest :=
  { TokenRequest.default with refresh_token := some rt, grant_type := .RefreshToken }

/-- Constructor `TokenRequest::client`. -/
def TokenRequest.client : TokenRequest :=
  { TokenRequest.default with grant_type := .ClientCredentials }

/-- Builder method `TokenRequest::client_id` (camel-cased to avoid the field
projection). -/
def TokenRequest.clientId (r : TokenRequest) (client_id : String) : TokenRequest :=
  { r with client_id := client_id }

/-- Builder method `TokenRequest::client_secret` (camel-cased to avoid the
field projection). -/
def TokenRequest.clientSecret (r : TokenRequest) (client_secret : String) : TokenRequest :=
  { r with client_secret := client_secret }

/-- Token response struct from `types.rs` (`TokenResponse`). -/
structure TokenResponse where
  access_token : String
  refresh_token : String
  expires_in : Nat
  refresh_expires_in : Nat
  token_type : String
  deriving DecidableEq, Repr

/-- Introspection request struct from `types.rs` (`TokenVerifyRequest`). -/
structure TokenVerifyRequest where
  token : String
  client_id : String
  client_secret : String
  deriving DecidableEq, Repr

/-- Introspection response struct from `types.rs` (`TokenVerifyResponse`). -/
structure TokenVerifyResponse where
  active : Bool
  deriving DecidableEq, Repr

/-- Credentials entry from `types.rs` (`Credentials`). -/
structure Credentials where
  creadential_type : String
  value : String
  temporary : Bool
  deriving DecidableEq, Repr

/-- User-creation request from `types.rs` (`CreateUserRequest`); the
`attributes` HashMap is modelled as an association list. -/
structure CreateUserRequest where
  firstname : String
  lastname : String
  username : String
  email : String
  attributes : List (String × String)
  enabled : Bool
  credentials : List Credentials
  deriving DecidableEq, Repr

/-- Constructor `CreateUserRequest::new`. -/
def CreateUserRequest.new (firstname lastname username email password : String) :
    CreateUserRequest :=
  { firstname := firstname, lastname := lastname, username := username,
    email := email, enabled := true, attributes := [],
    credentials := [{ creadential_type := "password", value := password,
                      temporary := false }] }

/-- Claim payload from `src/crates/keycloak/src/token_claim.rs`
(`TokenClaim`). -/
structure TokenClaim where
  iat : Nat
  exp : Nat
  azp : String
  given_name : String
  family_name : String
  email : String
  deriving DecidableEq, Repr

/-- One RSA public key entry of the provider's key set
(`keycloak.rs::CertKey`). -/
structure CertKey where
  kid : String
  n : String
  e : String
  deriving DecidableEq, Repr

/-- Key-set fetch response body (`keycloak.rs::Keys`). -/
structure Keys where
  keys : List CertKey
  deriving DecidableEq, Repr

/-! Form-url encoding (`serde_urlencoded::to_string`).  For the flat structs
this crate serializes (strings, `Option<String>` and a renamed unit-variant
enum at top level) serialization cannot fail; `None` fields are skipped. -/

/-- Hex digit of `n % 16`, upper case as `form_urlencoded` emits it. -/
def hexDigit (n : Nat) : Char :=
  if n < 10 then Char.ofNat (48 + n) else Char.ofNat (55 + n % 16)

/-- Percent-encoding of a single byte per `form_urlencoded`: alphanumerics and
`* - . _` pass through, space becomes `+`, everything else `%XX`. -/
def encByte (b : UInt8) : String :=
  let n := b.toNat
  if (48 ≤ n ∧ n ≤ 57) ∨ (65 ≤ n ∧ n ≤ 90) ∨ (97 ≤ n ∧ n ≤ 122)
      ∨ n = 42 ∨ n = 45 ∨ n = 46 ∨ n = 95 then
    String.singleton (Char.ofNat n)
  else if n = 32 then "+"
  else "%" ++ String.singleton (hexDigit (n / 16)) ++ String.singleton (hexDigit (n % 16))

/-- Percent-encoding of a string, byte-wise over its UTF-8 form. -/
def urlencode (s : String) : String :=
  String.join (s.toUTF8.toList.map encByte)

/-- Form-encoding of a list of key/value pairs, `&`-joined. -/
def formPairs (ps : List (String × String)) : String :=
  String.intercalate "&" (ps.map fun p => urlencode p.1 ++ "=" ++ urlencode p.2)

/-- Serialization of `TokenRequest` (field order as declared; `None` options
are skipped). -/
def TokenRequest.formEncode (r : TokenRequest) : String :=
  formPairs
    ((r.username.toList.map fun u => ("username", u))
      ++ (r.password.toList.map fun p => ("password", p))
      ++ (r.refresh_token.toList.map fun t => ("refresh_token", t))
      ++ [("client_id", r.client_id), ("client_secret", r.client_secret),
          ("grant_type", r.grant_type.wire)])

/-- Serialization of `TokenVerifyRequest`. -/
def TokenVerifyRequest.formEncode (r : TokenVerifyRequest) : String :=
  formPairs [("token", r.token), ("client_id", r.client_id),
             ("client_secret", r.client_secret)]

/-! Network oracle. -/

/-- An HTTP response as the operations consume it: a status code, the result
of parsing the body at the expected JSON type (`none` models a
deserialization failure of `Response::json`), and the raw body text
(`Response::text`). -/
structure HttpResponse (β : Type) where
  status : StatusCode
  json : Option β
  text : String

/-- Outcome of one network send: a transport-level failure below HTTP
(`reqwest::Error`) or an HTTP response. -/
inductive Fetch (β : Type) where
  | err (cause : String)
  | ok (r : HttpResponse β)

/-- RwLock model: the guarded value plus a poisoned flag; read and write
acquisition fail when poisoned (`std::sync::RwLock`). -/
structure RwLock (α : Type) where
  val : α
  poisoned : Bool

/-- Identity-client state from `keycloak.rs` (`struct Keycloak`), locks
modelled by `RwLock`. -/
structure Keycloak where
  client_id : String
  client_secret : String
  endpoint : String
  admin_url : String
  cert_keys : RwLock (Option (List (String × CertKey)))
  token : RwLock (Option TokenResponse)

/-- Constructor `Keycloak::new`. -/
def Keycloak.new (client_id client_secret realm url : String) : Keycloak :=
  { client_id := client_id, client_secret := client_secret,
    endpoint := s!"{url}/realms/{realm}/protocol/openid-connect",
    admin_url := s!"{url}/admin/realms/{realm}",
    cert_keys := ⟨none, false⟩, token := ⟨none, false⟩ }

/-- Constructor `Keycloak::new_from_env`; the process environment is the
oracle `env`. -/
def Keycloak.new_from_env (env : String → Option String) :
    Except KeycloakError Keycloak :=
  match env "KEYCLOAK_CLIENT_ID" with
  | none => .error (.ConfigNotFound "KEYCLOAK_CLIENT_ID")
  | some client_id =>
    match env "KEYCLOAK_CLIENT_SECRET" with
    | none => .error (.ConfigNotFound "KEYCLOAK_CLIENT_SECRET")
    | some client_secret =>
      match env "KEYCLOAK_REALM" with
      | none => .error (.ConfigNotFound "KEYCLOAK_REALM")
      | some realm =>
        match env "KEYCLOAK_URL" with
        | none => .error (.ConfigNotFound "KEYCLOAK_URL")
        | some url =>
          .ok { client_id := client_id, client_secret := client_secret,
                endpoint := s!"{url}/realms/{realm}/protocol/openid-connect",
                admin_url := s!"{url}/admin/realms/{realm}",
                cert_keys := ⟨none, false⟩, token := ⟨none, false⟩ }

/-- Shared tail of `get_oauth2_token` and `get_sc_oauth2_token`: interpret the
token-endpoint response (`200` → parsed body, `401` → `UnAuthorized`, other
→ `ResponseError`; a failing body read or parse surfaces as the underlying
`reqwest::Error`). -/
def tokenEndpointResult (f : Fetch TokenResponse) :
    Except KeycloakError TokenResponse :=
  match f with
  | .err cause => .error (.RequestError cause)
  | .ok r =>
    if r.status = 200 then
      match r.json with
      | some t => .ok t
      | none => .error (.RequestError "error decoding response body")
    else if r.status = 401 then .error .UnAuthorized
    else .error (.ResponseError r.status r.text)

/-- Effective request transmitted by `Keycloak::get_oauth2_token`: the
caller's request with the instance credentials injected
(`request.client_id(&self.client_id).client_secret(&self.client_secret)`). -/
def Keycloak.oauth2SentRequest (k : Keycloak) (request : TokenRequest) :
    TokenRequest :=
  (request.clientId k.client_id).clientSecret k.client_secret

/-- Operation `Keycloak::get_oauth2_token`; `net` maps the transmitted
form-encoded body to the network outcome. -/
def Keycloak.get_oauth2_token (k : Keycloak) (request : TokenRequest)
    (net : String → Fetch TokenResponse) : Except KeycloakError TokenResponse :=
  tokenEndpointResult (net (k.oauth2SentRequest request).formEncode)

/-- Effective request transmitted by `Keycloak::get_sc_oauth2_token`: a
client-credentials request carrying exactly the explicitly supplied pair. -/
def scSentRequest (client_id client_secret : String) : TokenRequest :=
  (TokenRequest.client.clientId client_id).clientSecret client_secret

/-- Operation `Keycloak::get_sc_oauth2_token`. -/
def Keycloak.get_sc_oauth2_token (_k : Keycloak) (client_id client_secret : String)
    (net : String → Fetch TokenResponse) : Except KeycloakError TokenResponse :=
  tokenEndpointResult (net (scSentRequest client_id client_secret).formEncode)

/-- Operation `Keycloak::verify_token` (introspection): `200` → parsed body,
any other status → `ResponseError`. -/
def Keycloak.verify_token (k : Keycloak) (token : String)
    (net : String → Fetch TokenVerifyResponse) :
    Except KeycloakError TokenVerifyResponse :=
  match net (TokenVerifyRequest.formEncode
      { token := token, client_id := k.client_id,
        client_secret := k.client_secret }) with
  | .err cause => .error (.RequestError cause)
  | .ok r =>
    if r.status = 200 then
      match r.json with
      | some v => .ok v
      | none => .error (.RequestError "error decoding response body")
    else .error (.ResponseError r.status r.text)

/-- Key map built by `Keycloak::load_keys` from the fetched list:
`keys.into_iter().map(|key| (key.kid.clone(), key)).collect::<HashMap<_,_>>()`.
Later entries overwrite earlier ones under a duplicate `kid`, so the
association list is reversed and looked up front-first. -/
def buildKeyMap (keys : List CertKey) : List (String × CertKey) :=
  (keys.map fun key => (key.kid, key)).reverse

/-- Operation `Keycloak::load_keys`: fetch `{endpoint}/certs` and on a `200`
replace the whole cached key map; returns the new state with the result. -/
def Keycloak.load_keys (k : Keycloak) (net : Fetch Keys) :
    Keycloak × Except KeycloakError Unit :=
  match net with
  | .err cause => (k, .error (.RequestError cause))
  | .ok r =>
    if r.status = 200 then
      match r.json with
      | none => (k, .error (.RequestError "error decoding response body"))
      | some cert_keys =>
        if k.cert_keys.poisoned then (k, .error .WriteLockFailed)
        else ({ k with cert_keys := ⟨some (buildKeyMap cert_keys.keys), false⟩ },
              .ok ())
    else (k, .error (.ResponseError r.status r.text))

/-- Operation `Keycloak::load_client_token`: obtain a client-credentials token
and store it in the token cache. -/
def Keycloak.load_client_token (k : Keycloak)
    (net : String → Fetch TokenResponse) : Keycloak × Except KeycloakError Unit :=
  match k.get_oauth2_token TokenRequest.client net with
  | .error e => (k, .error e)
  | .ok token =>
    if k.token.poisoned then (k, .error .WriteLockFailed)
    else ({ k with token := ⟨some token, false⟩ }, .ok ())

/-- Operation `Keycloak::register_user`: obtain a fresh client-credentials
token, then POST the user with it as bearer credential; `adminNet` maps the
bearer token and the user representation to the admin endpoint's outcome
(whose body JSON is never parsed, hence `Unit`). -/
def Keycloak.register_user (k : Keycloak) (user : CreateUserRequest)
    (net : String → Fetch TokenResponse)
    (adminNet : String → CreateUserRequest → Fetch Unit) :
    Except KeycloakError Unit :=
  match k.get_oauth2_token TokenRequest.client net with
  | .error e => .error e
  | .ok token =>
    match adminNet token.access_token user with
    | .err cause => .error (.RequestError cause)
    | .ok r =>
      if r.status = 201 then .ok ()
      else .error (.ResponseError r.status r.text)

/-! JWT decoding. -/

/-- Algorithms of `jsonwebtoken::Algorithm` that matter here: the source
matches `RS256` and treats every other algorithm uniformly. -/
inductive Algorithm where
  | RS256
  | HS256
  | RS384
  | ES256
  deriving DecidableEq, Repr

/-- Parsed JOSE header as `decode_header` exposes it (`alg` and optional
`kid`). -/
structure JwtHeader where
  alg : Algorithm
  kid : Option String
  deriving DecidableEq, Repr

/-- Abstract model of a token string as the `jsonwebtoken` library interprets
it: `header` is the result of `decode_header`, and `verify n e` the combined
result of `DecodingKey::from_rsa_components(n, e)` followed by
`jsonwebtoken::decode::<T>` under `Validation::new(Algorithm::RS256)` (both
failures surface identically as `JWTError`). -/
structure Jwt (T : Type) where
  header : Except JwtError JwtHeader
  verify : String → String → Except JwtError T

/-- Lookup of a `kid` in the cached key map (`cert_keys.get(&kid)`). -/
def lookupKey (m : List (String × CertKey)) (kid : String) : Option CertKey :=
  m.lookup kid

/-- Operation `Keycloak::decode::<T>`. -/
def Keycloak.decode {T : Type} (k : Keycloak) (token : Jwt T) :
    Except KeycloakError T :=
  match token.header with
  | .error e => .error (.JWTError e)
  | .ok header =>
    match header.alg with
    | .RS256 =>
      match header.kid with
      | none => .error (.Other "KID not specified")
      | some kid =>
        if k.cert_keys.poisoned then .error .ReadLockFailed
        else
          match k.cert_keys.val with
          | some cert_keys =>
            match lookupKey cert_keys kid with
            | some key =>
              match token.verify key.n key.e with
              | .error e => .error (.JWTError e)
              | .ok claims => .ok claims
            | none => .error (.Other "Key id not found")
          | none => .error (.Other "Cert Key Empty")
    | _ => .error (.Other "Algorithm Not Supported")

/-- Spec §4.2 `lookup(kid)`: the pure read `decode` performs on the key cache
— absent when the cache was never populated or the id is unknown. -/
def Keycloak.lookup (k : Keycloak) (kid : String) : Option CertKey :=
  match k.cert_keys.val with
  | none => none
  | some cert_keys => lookupKey cert_keys kid

/-!  Theorems for the claims. -/

/-- C10: `TokenRequest::client()` fixes grant type `client_credentials`,
`refresh_token(t)` fixes `refresh_token` and stores the given token,
`username_password(u,p)` and the plain `Default` value both carry grant type
`password`; and `GrantType` admits a fourth, distinct `authorization_code`
variant beyond those three. -/
theorem C10_token_request_grant_types :
    TokenRequest.client.grant_type = GrantType.ClientCredentials
    ∧ (∀ t : String, (TokenRequest.refreshToken t).grant_type = GrantType.RefreshToken
        ∧ (TokenRequest.refreshToken t).refresh_token = some t)
    ∧ (∀ u p : String, (TokenRequest.username_password u p).grant_type = GrantType.PASSWORD
        ∧ (TokenRequest.username_password u p).username = some u
        ∧ (TokenRequest.username_password u p).password = some p)
    ∧ TokenRequest.default.grant_type = GrantType.PASSWORD
    ∧ (∀ g : GrantType, g = GrantType.PASSWORD ∨ g = GrantType.AuthorizationCode
        ∨ g = GrantType.ClientCredentials ∨ g = GrantType.RefreshToken)
    ∧ (GrantType.AuthorizationCode == GrantType.PASSWORD) = false
    ∧ (GrantType.AuthorizationCode == GrantType.ClientCredentials) = false
    ∧ (GrantType.AuthorizationCode == GrantType.RefreshToken) = false
    ∧ GrantType.AuthorizationCode.wire = "authorization_code" := by
  refine ⟨rfl, fun t => ⟨rfl, rfl⟩, fun u p => ⟨rfl, rfl, rfl⟩, rfl, ?_,
    rfl, rfl, rfl, rfl⟩
  intro g
  cases g
  · exact Or.inl rfl
  · exact Or.inr (Or.inl rfl)
  · exact Or.inr (Or.inr (Or.inl rfl))
  · exact Or.inr (Or.inr (Or.inr rfl))

/-- C9: the cached token written by `load_client_token` is dead state for the
public operations — two instances differing only in the token cache field
give identical results for `decode`, `get_oauth2_token`,
`get_sc_oauth2_token`, `verify_token` and `register_user`. -/
theorem C9_token_cache_is_write_only (T : Type) (k : Keycloak)
    (l₁ l₂ : RwLock (Option TokenResponse)) :
    (∀ tok : Jwt T,
        Keycloak.decode { k with token := l₁ } tok
          = Keycloak.decode { k with token := l₂ } tok)
    ∧ (∀ req net,
        Keycloak.get_oauth2_token { k with token := l₁ } req net
          = Keycloak.get_oauth2_token { k with token := l₂ } req net)
    ∧ (∀ cid cs net,
        Keycloak.get_sc_oauth2_token { k with token := l₁ } cid cs net
          = Keycloak.get_sc_oauth2_token { k with token := l₂ } cid cs net)
    ∧ (∀ t net,
        Keycloak.verify_token { k with token := l₁ } t net
          = Keycloak.verify_token { k with token := l₂ } t net)
    ∧ (∀ user net adminNet,
        Keycloak.register_user { k with token := l₁ } user net adminNet
          = Keycloak.register_user { k with token := l₂ } user net adminNet) :=
  ⟨fun _ => rfl, fun _ _ => rfl, fun _ _ _ => rfl, fun _ _ => rfl,
   fun _ _ _ => rfl⟩

/-- C5: `get_oauth2_token` transmits the instance's own credentials,
overriding whatever the caller put in the request (all other request fields
pass through); `get_sc_oauth2_token` transmits exactly the explicitly
supplied pair. -/
theorem C5_instance_credentials_injected (k : Keycloak) (request : TokenRequest)
    (client_id client_secret : String) :
    (k.oauth2SentRequest request).client_id = k.client_id
    ∧ (k.oauth2SentRequest request).client_secret = k.client_secret
    ∧ (k.oauth2SentRequest request).username = request.username
    ∧ (k.oauth2SentRequest request).password = request.password
    ∧ (k.oauth2SentRequest request).refresh_token = request.refresh_token
    ∧ (k.oauth2SentRequest request).grant_type = request.grant_type
    ∧ (∀ net, k.get_oauth2_token request net
        = tokenEndpointResult (net (k.oauth2SentRequest request).formEncode))
    ∧ (scSentRequest client_id client_secret).client_id = client_id
    ∧ (scSentRequest client_id client_secret).client_secret = client_secret
    ∧ (∀ net, k.get_sc_oauth2_token client_id client_secret net
        = tokenEndpointResult (net (scSentRequest client_id client_secret).formEncode)) :=
  ⟨rfl, rfl, rfl, rfl, rfl, rfl, fun _ => rfl, rfl, rfl, fun _ => rfl⟩

/-- C8: `new_from_env` succeeds exactly when all four configuration variables
are present, deriving the token and admin endpoints from the base URL and
realm; when one is absent it fails with `ConfigNotFound` (the spec's
`ConfigMissing`) naming an absent variable, never yielding a partially
configured client. -/
theorem C8_new_from_env_configuration (env : String → Option String) :
    (∀ cid cs realm url,
        env "KEYCLOAK_CLIENT_ID" = some cid →
        env "KEYCLOAK_CLIENT_SECRET" = some cs →
        env "KEYCLOAK_REALM" = some realm →
        env "KEYCLOAK_URL" = some url →
        Keycloak.new_from_env env = .ok
          { client_id := cid, client_secret := cs,
            endpoint := s!"{url}/realms/{realm}/protocol/openid-connect",
            admin_url := s!"{url}/admin/realms/{realm}",
            cert_keys := ⟨none, false⟩, token := ⟨none, false⟩ })
    ∧ ((env "KEYCLOAK_CLIENT_ID" = none ∨ env "KEYCLOAK_CLIENT_SECRET" = none
        ∨ env "KEYCLOAK_REALM" = none ∨ env "KEYCLOAK_URL" = none) →
        ∃ name, env name = none
          ∧ Keycloak.new_from_env env = .error (.ConfigNotFound name)
          ∧ errKind (.ConfigNotFound name) = some (.ConfigMissing name)) := by
  constructor
  · intro cid cs realm url h1 h2 h3 h4
    simp [Keycloak.new_from_env, h1, h2, h3, h4]
  · intro h
    cases hc : env "KEYCLOAK_CLIENT_ID" with
    | none => exact ⟨_, hc, by simp [Keycloak.new_from_env, hc], rfl⟩
    | some cid =>
      cases hs : env "KEYCLOAK_CLIENT_SECRET" with
      | none => exact ⟨_, hs, by simp [Keycloak.new_from_env, hc, hs], rfl⟩
      | some cs =>
        cases hr : env "KEYCLOAK_REALM" with
        | none => exact ⟨_, hr, by simp [Keycloak.new_from_env, hc, hs, hr], rfl⟩
        | some realm =>
          cases hu : env "KEYCLOAK_URL" with
          | none =>
            exact ⟨_, hu, by simp [Keycloak.new_from_env, hc, hs, hr, hu], rfl⟩
          | some url => rcases h with h | h | h | h <;> simp_all

/-- Environment oracle with all four configuration variables present (used to
witness `C8_new_from_env_configuration`). -/
def envFull : String → Option String := fun v =>
  if v = "KEYCLOAK_CLIENT_ID" then some "cid"
  else if v = "KEYCLOAK_CLIENT_SECRET" then some "sec"
  else if v = "KEYCLOAK_REALM" then some "myrealm"
  else if v = "KEYCLOAK_URL" then some "http://kc" else none

/-- Concrete application of `C8_new_from_env_configuration`: a fully populated
environment constructs the client with the derived endpoints, and the empty
environment fails naming an absent variable. -/
theorem C8_new_from_env_configuration_witness :
    Keycloak.new_from_env envFull = .ok
      { client_id := "cid", client_secret := "sec",
        endpoint := "http://kc/realms/myrealm/protocol/openid-connect",
        admin_url := "http://kc/admin/realms/myrealm",
        cert_keys := ⟨none, false⟩, token := ⟨none, false⟩ }
    ∧ ∃ name, (fun _ : String => (none : Option String)) name = none
        ∧ Keycloak.new_from_env (fun _ => none) = .error (.ConfigNotFound name)
        ∧ errKind (.ConfigNotFound name) = some (.ConfigMissing name) := by
  constructor
  · have h := (C8_new_from_env_configuration envFull).1 "cid" "sec" "myrealm"
      "http://kc" (by decide) (by decide) (by decide) (by decide)
    simpa using h
  · exact (C8_new_from_env_configuration (fun _ => none)).2 (Or.inl rfl)

/-- Helper: the token-endpoint response interpretation, branch by branch. -/
theorem tokenEndpointResult_cases (f : Fetch TokenResponse) :
    (∀ cause, f = .err cause → tokenEndpointResult f = .error (.RequestError cause))
    ∧ (∀ r t, f = .ok r → r.status = 200 → r.json = some t →
        tokenEndpointResult f = .ok t)
    ∧ (∀ r, f = .ok r → r.status = 401 →
        tokenEndpointResult f = .error .UnAuthorized)
    ∧ (∀ r, f = .ok r → ¬(200 ≤ r.status ∧ r.status < 300) → r.status ≠ 401 →
        tokenEndpointResult f = .error (.ResponseError r.status r.text)) := by
  refine ⟨?_, ?_, ?_, ?_⟩
  · intro cause h; subst h; rfl
  · intro r t h h200 hjson; subst h; simp [tokenEndpointResult, h200, hjson]
  · intro r h h401; subst h; simp [tokenEndpointResult, h401]
  · intro r h hs h401
    subst h
    have h200 : r.status ≠ 200 := by
      intro hh
      rw [hh] at hs
      exact hs (by norm_num)
    simp [tokenEndpointResult, h200, h401]

/-- C3: both token-exchange operations interpret the provider's response as:
transport failure → `RequestError` (the spec's `TransportError`), `200` →
the deserialized `TokenResponse`, `401` → `UnAuthorized`, and any other
non-2xx status → `ResponseError` with that status and body (the spec's
`ProviderRejected`). -/
theorem C3_token_exchange_outcomes (k : Keycloak) (request : TokenRequest)
    (client_id client_secret : String) (net : String → Fetch TokenResponse) :
    (∀ cause, net (k.oauth2SentRequest request).formEncode = .err cause →
        k.get_oauth2_token request net = .error (.RequestError cause)
        ∧ errKind (.RequestError cause) = some (.TransportError cause))
    ∧ (∀ r t, net (k.oauth2SentRequest request).formEncode = .ok r →
        r.status = 200 → r.json = some t →
        k.get_oauth2_token request net = .ok t)
    ∧ (∀ r, net (k.oauth2SentRequest request).formEncode = .ok r →
        r.status = 401 →
        k.get_oauth2_token request net = .error .UnAuthorized
        ∧ errKind .UnAuthorized = some .Unauthorized)
    ∧ (∀ r, net (k.oauth2SentRequest request).formEncode = .ok r →
        ¬(200 ≤ r.status ∧ r.status < 300) → r.status ≠ 401 →
        k.get_oauth2_token request net = .error (.ResponseError r.status r.text)
        ∧ errKind (.ResponseError r.status r.text)
            = some (.ProviderRejected r.status r.text))
    ∧ (∀ cause, net (scSentRequest client_id client_secret).formEncode = .err cause →
        k.get_sc_oauth2_token client_id client_secret net
          = .error (.RequestError cause))
    ∧ (∀ r t, net (scSentRequest client_id client_secret).formEncode = .ok r →
        r.status = 200 → r.json = some t →
        k.get_sc_oauth2_token client_id client_secret net = .ok t)
    ∧ (∀ r, net (scSentRequest client_id client_secret).formEncode = .ok r →
        r.status = 401 →
        k.get_sc_oauth2_token client_id client_secret net = .error .UnAuthorized)
    ∧ (∀ r, net (scSentRequest client_id client_secret).formEncode = .ok r →
        ¬(200 ≤ r.status ∧ r.status < 300) → r.status ≠ 401 →
        k.get_sc_oauth2_token client_id client_secret net
          = .error (.ResponseError r.status r.text)) := by
  obtain ⟨he, h200, h401, hother⟩ :=
    tokenEndpointResult_cases (net (k.oauth2SentRequest request).formEncode)
  obtain ⟨he', h200', h401', hother'⟩ :=
    tokenEndpointResult_cases (net (scSentRequest client_id client_secret).formEncode)
  exact ⟨fun cause h => ⟨he cause h, rfl⟩,
    fun r t h a b => h200 r t h a b,
    fun r h a => ⟨h401 r h a, rfl⟩,
    fun r h a b => ⟨hother r h a b, rfl⟩,
    fun cause h => he' cause h,
    fun r t h a b => h200' r t h a b,
    fun r h a => h401' r h a,
    fun r h a b => hother' r h a b⟩

/-- Concrete client instance shared by the witnesses. -/
def kcTest : Keycloak := Keycloak.new "cid" "sec" "myrealm" "http://kc"

/-- Concrete token response shared by the witnesses. -/
def tokTest : TokenResponse :=
  { access_token := "at", refresh_token := "rt", expires_in := 300,
    refresh_expires_in := 1800, token_type := "Bearer" }

/-- Concrete application of `C3_token_exchange_outcomes`: a network oracle
answering `200` with a parseable body yields the token; one answering `403`
yields `ResponseError 403`. -/
theorem C3_token_exchange_outcomes_witness :
    kcTest.get_oauth2_token TokenRequest.client
        (fun _ => .ok ⟨200, some tokTest, ""⟩) = .ok tokTest
    ∧ kcTest.get_sc_oauth2_token "other" "osec"
        (fun _ => .ok ⟨403, none, "no"⟩) = .error (.ResponseError 403 "no") := by
  constructor
  · exact (C3_token_exchange_outcomes kcTest TokenRequest.client "other" "osec"
      (fun _ => .ok ⟨200, some tokTest, ""⟩)).2.1 ⟨200, some tokTest, ""⟩
      tokTest rfl rfl rfl
  · exact ((C3_token_exchange_outcomes kcTest TokenRequest.client "other" "osec"
      (fun _ => .ok ⟨403, none, "no"⟩)).2.2.2.2.2.2.2 ⟨403, none, "no"⟩
      rfl (by decide) (by decide))

/-- C4: `load_keys` is atomic with respect to the key cache — on any failure
(transport error, non-200 response, body-parse failure or lock failure) the
state is left completely unchanged, and on success the whole cached mapping
is replaced by the map built from the newly fetched key list, regardless of
the previous contents. -/
theorem C4_load_keys_atomic (k : Keycloak) (net : Fetch Keys) :
    (∀ e, (k.load_keys net).2 = .error e → (k.load_keys net).1 = k)
    ∧ (∀ r keys, net = .ok r → r.status = 200 → r.json = some keys →
        k.cert_keys.poisoned = false →
        k.load_keys net =
          ({ k with cert_keys := ⟨some (buildKeyMap keys.keys), false⟩ },
           .ok ())) := by
  constructor
  · intro e he
    cases net with
    | err cause => rfl
    | ok r =>
      by_cases h200 : r.status = 200
      · cases hj : r.json with
        | none => simp [Keycloak.load_keys, h200, hj]
        | some keys =>
          by_cases hp : k.cert_keys.poisoned
          · simp [Keycloak.load_keys, h200, hj, hp]
          · exfalso
            simp [Keycloak.load_keys, h200, hj, hp] at he
      · simp [Keycloak.load_keys, h200]
  · intro r keys hnet h200 hjson hpois
    subst hnet
    simp [Keycloak.load_keys, h200, hjson, hpois]

/-- Concrete key entry shared by the witnesses. -/
def certKeyTest : CertKey := { kid := "kid1", n := "nmod", e := "AQAB" }

/-- Concrete application of `C4_load_keys_atomic`: a `500` response leaves the
fresh client's state unchanged, and a `200` response carrying one key
replaces the cache with exactly that key map. -/
theorem C4_load_keys_atomic_witness :
    (kcTest.load_keys (.ok ⟨500, none, "boom"⟩)).1 = kcTest
    ∧ kcTest.load_keys (.ok ⟨200, some ⟨[certKeyTest]⟩, "body"⟩) =
        ({ kcTest with cert_keys := ⟨some [("kid1", certKeyTest)], false⟩ },
         .ok ()) := by
  constructor
  · exact (C4_load_keys_atomic kcTest (.ok ⟨500, none, "boom"⟩)).1
      (.ResponseError 500 "boom") rfl
  · have h := (C4_load_keys_atomic kcTest
      (.ok ⟨200, some ⟨[certKeyTest]⟩, "body"⟩)).2 ⟨200, some ⟨[certKeyTest]⟩, "body"⟩
      ⟨[certKeyTest]⟩ rfl rfl rfl rfl
    simpa [buildKeyMap, certKeyTest] using h

/-- C6: `register_user` first performs a fresh client-credentials token
exchange (propagating its failure, and independent of the token cache), then
POSTs the user with the obtained access token as bearer credential; it
succeeds exactly when the admin endpoint answers `201`, and any other status
fails with `ResponseError` (the spec's `ProviderRejected`) carrying status
and body. -/
theorem C6_register_user_fresh_token (k : Keycloak) (user : CreateUserRequest)
    (net : String → Fetch TokenResponse)
    (adminNet : String → CreateUserRequest → Fetch Unit) :
    (∀ e, k.get_oauth2_token TokenRequest.client net = .error e →
        k.register_user user net adminNet = .error e)
    ∧ (∀ token r, k.get_oauth2_token TokenRequest.client net = .ok token →
        adminNet token.access_token user = .ok r →
        (k.register_user user net adminNet = .ok () ↔ r.status = 201))
    ∧ (∀ token r, k.get_oauth2_token TokenRequest.client net = .ok token →
        adminNet token.access_token user = .ok r → r.status ≠ 201 →
        k.register_user user net adminNet
          = .error (.ResponseError r.status r.text))
    ∧ (∀ l : RwLock (Option TokenResponse),
        Keycloak.register_user { k with token := l } user net adminNet
          = k.register_user user net adminNet) := by
  refine ⟨?_, ?_, ?_, fun l => rfl⟩
  · intro e he
    simp [Keycloak.register_user, he]
  · intro token r htok hadm
    by_cases h201 : r.status = 201
    · simp [Keycloak.register_user, htok, hadm, h201]
    · simp [Keycloak.register_user, htok, hadm, h201]
  · intro token r htok hadm h201
    simp [Keycloak.register_user, htok, hadm, h201]

/-- Concrete user request shared by the witnesses. -/
def userTest : CreateUserRequest :=
  CreateUserRequest.new "First" "Second" "username" "ini@email.com" "pw"

/-- Concrete application of `C6_register_user_fresh_token`: with a `200` token
exchange and a `201` admin response registration succeeds, and with a `409`
admin response it fails with `ResponseError 409`. -/
theorem C6_register_user_fresh_token_witness :
    (kcTest.register_user userTest (fun _ => .ok ⟨200, some tokTest, ""⟩)
        (fun _ _ => .ok ⟨201, none, ""⟩) = .ok ()
      ↔ (201 : Nat) = 201)
    ∧ kcTest.register_user userTest (fun _ => .ok ⟨200, some tokTest, ""⟩)
        (fun _ _ => .ok ⟨409, none, "exists"⟩)
        = .error (.ResponseError 409 "exists") := by
  constructor
  · exact (C6_register_user_fresh_token kcTest userTest
      (fun _ => .ok ⟨200, some tokTest, ""⟩) (fun _ _ => .ok ⟨201, none, ""⟩)).2.1
      tokTest ⟨201, none, ""⟩ rfl rfl
  · exact (C6_register_user_fresh_token kcTest userTest
      (fun _ => .ok ⟨200, some tokTest, ""⟩)
      (fun _ _ => .ok ⟨409, none, "exists"⟩)).2.2.1
      tokTest ⟨409, none, "exists"⟩ rfl rfl (by decide)

/-- C1: on an RS256 token, `decode` fails with the spec's `MalformedToken`
kind when the header has no `kid`; with the `SigningKeyNotFound` kind when
the `kid` is absent from the key cache (including a never-populated cache);
and succeeds exactly when the `kid` resolves to a cached key against which
the signature verifies. -/
theorem C1_decode_kid_resolution (T : Type) (k : Keycloak) (token : Jwt T) :
    (token.header = .ok ⟨.RS256, none⟩ →
        ∃ e, k.decode token = .error e ∧ errKind e = some .MalformedToken)
    ∧ (∀ kid, token.header = .ok ⟨.RS256, some kid⟩ →
        k.cert_keys.poisoned = false → k.lookup kid = none →
        ∃ e, k.decode token = .error e ∧ errKind e = some .SigningKeyNotFound)
    ∧ (∀ c : T, k.decode token = .ok c ↔
        ∃ kid key, token.header = .ok ⟨.RS256, some kid⟩
          ∧ k.cert_keys.poisoned = false
          ∧ k.lookup kid = some key
          ∧ token.verify key.n key.e = .ok c) := by
  refine ⟨?_, ?_, ?_⟩
  · intro hh
    exact ⟨.Other "KID not specified", by simp [Keycloak.decode, hh], rfl⟩
  · intro kid hh hp hl
    cases hv : k.cert_keys.val with
    | none =>
      exact ⟨.Other "Cert Key Empty", by simp [Keycloak.decode, hh, hp, hv], rfl⟩
    | some m =>
      have hl' : lookupKey m kid = none := by
        simpa [Keycloak.lookup, hv] using hl
      exact ⟨.Other "Key id not found",
        by simp [Keycloak.decode, hh, hp, hv, hl'], rfl⟩
  · intro c
    constructor
    · intro hok
      rcases hh : token.header with he | hdr
      · simp [Keycloak.decode, hh] at hok
      · obtain ⟨alg, okid⟩ := hdr
        cases alg with
        | RS256 =>
          cases okid with
          | none => simp [Keycloak.decode, hh] at hok
          | some kid =>
            cases hp : k.cert_keys.poisoned with
            | true => simp [Keycloak.decode, hh, hp] at hok
            | false =>
              cases hv : k.cert_keys.val with
              | none => simp [Keycloak.decode, hh, hp, hv] at hok
              | some m =>
                cases hl : lookupKey m kid with
                | none => simp [Keycloak.decode, hh, hp, hv, hl] at hok
                | some key =>
                  cases hver : token.verify key.n key.e with
                  | error je =>
                    simp [Keycloak.decode, hh, hp, hv, hl, hver] at hok
                  | ok c2 =>
                    have hc : c2 = c := by
                      simpa [Keycloak.decode, hh, hp, hv, hl, hver] using hok
                    subst hc
                    exact ⟨kid, key, rfl, rfl,
                      by simp [Keycloak.lookup, hv, hl], hver⟩
        | HS256 => simp [Keycloak.decode, hh] at hok
        | RS384 => simp [Keycloak.decode, hh] at hok
        | ES256 => simp [Keycloak.decode, hh] at hok
    · rintro ⟨kid, key, hh, hp, hl, hver⟩
      cases hv : k.cert_keys.val with
      | none => simp [Keycloak.lookup, hv] at hl
      | some m =>
        have hl' : lookupKey m kid = some key := by
          simpa [Keycloak.lookup, hv] using hl
        simp [Keycloak.decode, hh, hp, hv, hl', hver]

/-- C7: on a token whose header carries any algorithm other than RS256,
`decode` fails with the spec's `UnsupportedAlgorithm` kind, and the result
is the same for every client state — no key lookup and no lock acquisition
takes place. -/
theorem C7_unsupported_algorithm (T : Type) (k : Keycloak) (token : Jwt T)
    (hdr : JwtHeader) (hh : token.header = .ok hdr)
    (halg : hdr.alg ≠ .RS256) :
    k.decode token = .error (.Other "Algorithm Not Supported")
    ∧ errKind (.Other "Algorithm Not Supported") = some .UnsupportedAlgorithm
    ∧ (∀ k2 : Keycloak, k2.decode token = k.decode token) := by
  obtain ⟨alg, okid⟩ := hdr
  cases alg with
  | RS256 => exact absurd rfl halg
  | HS256 =>
    exact ⟨by simp [Keycloak.decode, hh], rfl,
      fun k2 => by simp [Keycloak.decode, hh]⟩
  | RS384 =>
    exact ⟨by simp [Keycloak.decode, hh], rfl,
      fun k2 => by simp [Keycloak.decode, hh]⟩
  | ES256 =>
    exact ⟨by simp [Keycloak.decode, hh], rfl,
      fun k2 => by simp [Keycloak.decode, hh]⟩

/-- Concrete claim payload shared by the witnesses. -/
def claimTest : TokenClaim :=
  { iat := 1, exp := 2, azp := "backend-service", given_name := "G",
    family_name := "F", email := "g@x.id" }

/-- Concrete RS256 token shared by the witnesses: header names `kid1`, and the
signature verifies exactly against the components of `certKeyTest`. -/
def jwtTest : Jwt TokenClaim :=
  { header := .ok ⟨.RS256, some "kid1"⟩,
    verify := fun n e =>
      if n = "nmod" ∧ e = "AQAB" then .ok claimTest
      else .error .invalidSignature }

/-- Concrete RS256 token without a `kid` (used to witness
`C1_decode_kid_resolution`). -/
def jwtNoKid : Jwt TokenClaim :=
  { header := .ok ⟨.RS256, none⟩,
    verify := fun _ _ => .error .invalidSignature }

/-- Client whose key cache holds exactly `certKeyTest` under `kid1`. -/
def kcLoaded : Keycloak :=
  { kcTest with cert_keys := ⟨some [("kid1", certKeyTest)], false⟩ }

/-- Concrete application of `C1_decode_kid_resolution`: the kid-less token
fails with a `MalformedToken`-kind error, the fresh (never-refreshed) client
fails with a `SigningKeyNotFound`-kind error, and the loaded client decodes
the matching token to its claims. -/
theorem C1_decode_kid_resolution_witness :
    (∃ e, kcLoaded.decode jwtNoKid = .error e
        ∧ errKind e = some .MalformedToken)
    ∧ (∃ e, kcTest.decode jwtTest = .error e
        ∧ errKind e = some .SigningKeyNotFound)
    ∧ kcLoaded.decode jwtTest = .ok claimTest := by
  refine ⟨?_, ?_, ?_⟩
  · exact (C1_decode_kid_resolution TokenClaim kcLoaded jwtNoKid).1 rfl
  · exact (C1_decode_kid_resolution TokenClaim kcTest jwtTest).2.1 "kid1"
      rfl rfl rfl
  · exact ((C1_decode_kid_resolution TokenClaim kcLoaded jwtTest).2.2
      claimTest).mpr ⟨"kid1", certKeyTest, rfl, rfl, by decide, by rfl⟩

/-- Concrete HS256 token (used to witness `C7_unsupported_algorithm`). -/
def jwtHS : Jwt TokenClaim :=
  { header := .ok ⟨.HS256, some "kid1"⟩,
    verify := fun _ _ => .error .invalidSignature }

/-- Concrete application of `C7_unsupported_algorithm`: an HS256 token is
rejected identically by the loaded and the fresh client. -/
theorem C7_unsupported_algorithm_witness :
    kcLoaded.decode jwtHS = .error (.Other "Algorithm Not Supported")
    ∧ kcTest.decode jwtHS = kcLoaded.decode jwtHS := by
  have h := C7_unsupported_algorithm TokenClaim kcLoaded jwtHS
    ⟨.HS256, some "kid1"⟩ rfl (by decide)
  exact ⟨h.1, h.2.2 kcTest⟩

/-- Helper: every error the token-endpoint interpretation produces has a
taxonomy kind. -/
theorem tokenEndpointResult_errKind (f : Fetch TokenResponse)
    (e : KeycloakError) (h : tokenEndpointResult f = .error e) :
    (errKind e).isSome = true := by
  cases f with
  | err cause =>
    simp [tokenEndpointResult] at h
    subst h; rfl
  | ok r =>
    by_cases h200 : r.status = 200
    · cases hj : r.json with
      | some t => simp [tokenEndpointResult, h200, hj] at h
      | none =>
        simp [tokenEndpointResult, h200, hj] at h
        subst h; rfl
    · by_cases h401 : r.status = 401
      · simp [tokenEndpointResult, h200, h401] at h
        subst h; rfl
      · simp [tokenEndpointResult, h200, h401] at h
        subst h; rfl

/-- Helper: every error `decode` produces has a taxonomy kind. -/
theorem decode_errKind (T : Type) (k : Keycloak) (tok : Jwt T)
    (e : KeycloakError) (h : k.decode tok = .error e) :
    (errKind e).isSome = true := by
  rcases hh : tok.header with he | hdr
  · simp [Keycloak.decode, hh] at h
    subst h; rfl
  · obtain ⟨alg, okid⟩ := hdr
    cases alg with
    | RS256 =>
      cases okid with
      | none =>
        simp [Keycloak.decode, hh] at h
        subst h; rfl
      | some kid =>
        cases hp : k.cert_keys.poisoned with
        | true =>
          simp [Keycloak.decode, hh, hp] at h
          subst h; rfl
        | false =>
          cases hv : k.cert_keys.val with
          | none =>
            simp [Keycloak.decode, hh, hp, hv] at h
            subst h; rfl
          | some m =>
            cases hl : lookupKey m kid with
            | none =>
              simp [Keycloak.decode, hh, hp, hv, hl] at h
              subst h; rfl
            | some key =>
              cases hver : tok.verify key.n key.e with
              | error je =>
                simp [Keycloak.decode, hh, hp, hv, hl, hver] at h
                subst h; rfl
              | ok c => simp [Keycloak.decode, hh, hp, hv, hl, hver] at h
    | HS256 => simp [Keycloak.decode, hh] at h; subst h; rfl
    | RS384 => simp [Keycloak.decode, hh] at h; subst h; rfl
    | ES256 => simp [Keycloak.decode, hh] at h; subst h; rfl

/-- C2: every error any operation surfaces falls inside the closed taxonomy —
its `errKind` is defined, i.e. it is one of `Unauthorized`,
`ProviderRejected`, `TransportError`, `UnsupportedAlgorithm`,
`MalformedToken`, `SigningKeyNotFound`, `InvalidToken`, `CacheLockFailure`,
`ConfigMissing`. -/
theorem C2_closed_error_taxonomy :
    (∀ env e, Keycloak.new_from_env env = .error e → (errKind e).isSome = true)
    ∧ (∀ (k : Keycloak) req net e, k.get_oauth2_token req net = .error e →
        (errKind e).isSome = true)
    ∧ (∀ (k : Keycloak) cid cs net e, k.get_sc_oauth2_token cid cs net = .error e →
        (errKind e).isSome = true)
    ∧ (∀ (k : Keycloak) t net e, k.verify_token t net = .error e →
        (errKind e).isSome = true)
    ∧ (∀ (k : Keycloak) net e, (k.load_keys net).2 = .error e →
        (errKind e).isSome = true)
    ∧ (∀ (k : Keycloak) net e, (k.load_client_token net).2 = .error e →
        (errKind e).isSome = true)
    ∧ (∀ (k : Keycloak) user net adminNet e,
        k.register_user user net adminNet = .error e →
        (errKind e).isSome = true)
    ∧ (∀ (T : Type) (k : Keycloak) (tok : Jwt T) e, k.decode tok = .error e →
        (errKind e).isSome = true) := by
  refine ⟨?_, ?_, ?_, ?_, ?_, ?_, ?_, decode_errKind⟩
  · intro env e h
    cases hc : env "KEYCLOAK_CLIENT_ID" with
    | none => simp [Keycloak.new_from_env, hc] at h; subst h; rfl
    | some cid =>
      cases hs : env "KEYCLOAK_CLIENT_SECRET" with
      | none => simp [Keycloak.new_from_env, hc, hs] at h; subst h; rfl
      | some cs =>
        cases hr : env "KEYCLOAK_REALM" with
        | none => simp [Keycloak.new_from_env, hc, hs, hr] at h; subst h; rfl
        | some realm =>
          cases hu : env "KEYCLOAK_URL" with
          | none =>
            simp [Keycloak.new_from_env, hc, hs, hr, hu] at h
            subst h; rfl
          | some url => simp [Keycloak.new_from_env, hc, hs, hr, hu] at h
  · intro k req net e h
    exact tokenEndpointResult_errKind _ e h
  · intro k cid cs net e h
    exact tokenEndpointResult_errKind _ e h
  · intro k t net e h
    unfold Keycloak.verify_token at h
    cases hf : net (TokenVerifyRequest.formEncode
        { token := t, client_id := k.client_id,
          client_secret := k.client_secret }) with
    | err cause => rw [hf] at h; simp at h; subst h; rfl
    | ok r =>
      rw [hf] at h
      by_cases h200 : r.status = 200
      · cases hj : r.json with
        | some v => simp [h200, hj] at h
        | none => simp [h200, hj] at h; subst h; rfl
      · simp [h200] at h; subst h; rfl
  · intro k net e h
    cases net with
    | err cause => simp [Keycloak.load_keys] at h; subst h; rfl
    | ok r =>
      by_cases h200 : r.status = 200
      · cases hj : r.json with
        | none => simp [Keycloak.load_keys, h200, hj] at h; subst h; rfl
        | some keys =>
          cases hp : k.cert_keys.poisoned with
          | true =>
            simp [Keycloak.load_keys, h200, hj, hp] at h
            subst h; rfl
          | false => simp [Keycloak.load_keys, h200, hj, hp] at h
      · simp [Keycloak.load_keys, h200] at h; subst h; rfl
  · intro k net e h
    unfold Keycloak.load_client_token at h
    cases hg : k.get_oauth2_token TokenRequest.client net with
    | error e2 =>
      rw [hg] at h
      simp at h
      subst h
      exact tokenEndpointResult_errKind _ e2 hg
    | ok token =>
      rw [hg] at h
      cases hp : k.token.poisoned with
      | true => simp [hp] at h; subst h; rfl
      | false => simp [hp] at h
  · intro k user net adminNet e h
    unfold Keycloak.register_user at h
    cases hg : k.get_oauth2_token TokenRequest.client net with
    | error e2 =>
      rw [hg] at h
      simp at h
      subst h
      exact tokenEndpointResult_errKind _ e2 hg
    | ok token =>
      rw [hg] at h
      cases ha : adminNet token.access_token user with
      | err cause => simp [ha] at h; subst h; rfl
      | ok r =>
        by_cases h201 : r.status = 201
        · simp [ha, h201] at h
        · simp [ha, h201] at h; subst h; rfl

/-- Concrete application of `C2_closed_error_taxonomy`: the error surfaced by
construction from an empty environment has a taxonomy kind. -/
theorem C2_closed_error_taxonomy_witness :
    (errKind (KeycloakError.ConfigNotFound "KEYCLOAK_CLIENT_ID")).isSome = true :=
  C2_closed_error_taxonomy.1 (fun _ => none)
    (KeycloakError.ConfigNotFound "KEYCLOAK_CLIENT_ID") rfl

end KeycloakCrate
